import Mathlib

/-!
Shallow embedding of the rusty-math repository (src/src/lib.rs).

The source defines a fixed-size vector `Vector3<T>([T; 3])`, a matrix
`Matrix3X3<T>([Vector3<T>; 3])`, and a stateless space `ThreeDimSpaceV2`
bound to `Vector3<u32>` with scalar `u32`.  The space implements
`vscale_mut` / `vscale`, `vadd_mut` / `vadd` (generated by the
`vector_space!` macro) and `madd_mut` / `madd`.  The non-mutating
variants copy the left operand and delegate to the mutating ones.

Machine integers: `u32` values are modelled as `Nat`, with addition and
multiplication reduced modulo `2 ^ 32` (Rust release-mode wrapping
semantics of `AddAssign` / `MulAssign` on `u32`).  In-place mutation of
the left operand is modelled as a function returning the operand's new
value.
-/

namespace RustyMath

/-- Modulus of the `u32` scalar type: arithmetic wraps modulo `2 ^ 32`. -/
def U32_MOD : Nat := 2 ^ 32

/-- Wrapping `u32` addition (`AddAssign` on `u32`). -/
def u32add (a b : Nat) : Nat := (a + b) % U32_MOD

/-- Wrapping `u32` multiplication (`MulAssign` on `u32`). -/
def u32mul (a b : Nat) : Nat := (a * b) % U32_MOD

/-- The container `Vector3<T>([T; 3])`: a fixed array of three scalars,
indexed positionally. -/
@[ext]
structure Vector3 (T : Type) where
  data : Fin 3 → T

/-- The container `Matrix3X3<T>([Vector3<T>; 3])`: three rows, each a
`Vector3<T>`. -/
@[ext]
structure Matrix3X3 (T : Type) where
  rows : Fin 3 → Vector3 T

/-- Convenience constructor matching `Vector3([a, b, c])` in the source. -/
def v3 (a b c : Nat) : Vector3 Nat := ⟨![a, b, c]⟩

/-- Convenience constructor matching `Matrix3X3([r0, r1, r2])`. -/
def m3 (r0 r1 r2 : Vector3 Nat) : Matrix3X3 Nat := ⟨![r0, r1, r2]⟩

namespace ThreeDimSpaceV2

/-- The impl of `VScaleMut::vscale_mut` for `ThreeDimSpaceV2`:
`vector.0.iter_mut().for_each(|val| val.mul_assign(scalar))`.
The mutated vector's new value is returned. -/
def vscale_mut (vector : Vector3 Nat) (scalar : Nat) : Vector3 Nat :=
  ⟨fun i => u32mul (vector.data i) scalar⟩

/-- The impl of `VScale::vscale` for `ThreeDimSpaceV2`: copies the vector
into `buf`, applies `vscale_mut`, returns `buf`. -/
def vscale (vector : Vector3 Nat) (scalar : Nat) : Vector3 Nat :=
  vscale_mut vector scalar

/-- The impl of `VAddMut::vadd_mut` for `ThreeDimSpaceV2`:
`lhs.0.iter_mut().zip(rhs.0).for_each(|(l, r)| l.add_assign(r))`.
The mutated left operand's new value is returned. -/
def vadd_mut (lhs rhs : Vector3 Nat) : Vector3 Nat :=
  ⟨fun i => u32add (lhs.data i) (rhs.data i)⟩

/-- The impl of `VAdd::vadd` for `ThreeDimSpaceV2`: copies `lhs` into
`temp`, applies `vadd_mut`, returns `temp`. -/
def vadd (lhs rhs : Vector3 Nat) : Vector3 Nat :=
  vadd_mut lhs rhs

/-- The impl of `MAddMut::madd_mut` for `ThreeDimSpaceV2`: zips the rows
of both matrices and, within each pair of rows, zips the elements and
adds in place.  The mutated left operand's new value is returned. -/
def madd_mut (lhs rhs : Matrix3X3 Nat) : Matrix3X3 Nat :=
  ⟨fun i => ⟨fun j => u32add ((lhs.rows i).data j) ((rhs.rows i).data j)⟩⟩

/-- The impl of `MAdd::madd` for `ThreeDimSpaceV2`: copies `lhs` into
`temp`, applies `madd_mut`, returns `temp`. -/
def madd (lhs rhs : Matrix3X3 Nat) : Matrix3X3 Nat :=
  madd_mut lhs rhs

end ThreeDimSpaceV2

/-- C1: for every pair of vectors `u`, `v` and every index `i` in `[0, 3)`,
the non-mutating `vadd(u, v)` returns a new vector whose `i`-th element is
`u[i] + v[i]` under the scalar type's (`u32`) addition. -/
theorem vadd_elementwise (u v : Vector3 Nat) (i : Fin 3) :
    (ThreeDimSpaceV2.vadd u v).data i = u32add (u.data i) (v.data i) := rfl

/-- C2: matrix addition `madd(x, y)` equals the matrix obtained by
applying elementwise vector addition `vadd` independently to each
corresponding pair of rows. -/
theorem madd_rowwise (x y : Matrix3X3 Nat) :
    ThreeDimSpaceV2.madd x y
      = ⟨fun i => ThreeDimSpaceV2.vadd (x.rows i) (y.rows i)⟩ := rfl

/-- C3: every operation (`vadd`, `vadd_mut`, `vscale`, `vscale_mut`,
`madd`, `madd_mut`) is total: for every well-typed fixed-size input it
produces a result, with no failure branch. -/
theorem ops_total (u v : Vector3 Nat) (s : Nat) (x y : Matrix3X3 Nat) :
    (∃ w, ThreeDimSpaceV2.vadd u v = w)
      ∧ (∃ w, ThreeDimSpaceV2.vadd_mut u v = w)
      ∧ (∃ w, ThreeDimSpaceV2.vscale u s = w)
      ∧ (∃ w, ThreeDimSpaceV2.vscale_mut u s = w)
      ∧ (∃ m, ThreeDimSpaceV2.madd x y = m)
      ∧ (∃ m, ThreeDimSpaceV2.madd_mut x y = m) :=
  ⟨⟨_, rfl⟩, ⟨_, rfl⟩, ⟨_, rfl⟩, ⟨_, rfl⟩, ⟨_, rfl⟩, ⟨_, rfl⟩⟩

/-- C4: the arithmetic of `vadd` and `vscale` follows `u32` wraparound
semantics: `vadd(u, v)[i] = (u[i] + v[i]) mod 2 ^ 32` and
`vscale(v, s)[i] = (v[i] * s) mod 2 ^ 32`. -/
theorem u32_wraparound (u v : Vector3 Nat) (s : Nat) (i : Fin 3) :
    (ThreeDimSpaceV2.vadd u v).data i = (u.data i + v.data i) % 2 ^ 32
      ∧ (ThreeDimSpaceV2.vscale v s).data i = (v.data i * s) % 2 ^ 32 :=
  ⟨rfl, rfl⟩

/-- C5: for every vector `v`, scalar `s` and index `i` in `[0, 3)`, the
non-mutating `vscale(v, s)` returns a new vector whose `i`-th element is
`v[i] * s` under the scalar type's (`u32`) multiplication. -/
theorem vscale_elementwise (v : Vector3 Nat) (s : Nat) (i : Fin 3) :
    (ThreeDimSpaceV2.vscale v s).data i = u32mul (v.data i) s := rfl

/-- C6: vector addition is commutative: `vadd(u, v) = vadd(v, u)`. -/
theorem vadd_comm (u v : Vector3 Nat) :
    ThreeDimSpaceV2.vadd u v = ThreeDimSpaceV2.vadd v u := by
  unfold ThreeDimSpaceV2.vadd ThreeDimSpaceV2.vadd_mut
  congr 1
  funext i
  exact congrArg (· % U32_MOD) (Nat.add_comm _ _)

/-- C7: scaling distributes over vector addition:
`vscale(vadd(u, v), s) = vadd(vscale(u, s), vscale(v, s))`. -/
theorem vscale_vadd_distrib (u v : Vector3 Nat) (s : Nat) :
    ThreeDimSpaceV2.vscale (ThreeDimSpaceV2.vadd u v) s
      = ThreeDimSpaceV2.vadd (ThreeDimSpaceV2.vscale u s)
          (ThreeDimSpaceV2.vscale v s) := by
  unfold ThreeDimSpaceV2.vscale ThreeDimSpaceV2.vadd
  unfold ThreeDimSpaceV2.vscale_mut ThreeDimSpaceV2.vadd_mut
  congr 1
  funext i
  show u32mul (u32add (u.data i) (v.data i)) s
      = u32add (u32mul (u.data i) s) (u32mul (v.data i) s)
  unfold u32mul u32add
  rw [Nat.mod_mul_mod, Nat.add_mul, Nat.add_mod]

/-- C8: each mutating variant agrees with its non-mutating counterpart:
`vadd_mut` leaves the left operand equal to `vadd` of the old operands,
`vscale_mut` leaves the vector equal to `vscale` of the old vector, and
`madd_mut` leaves the left matrix equal to `madd` of the old matrices. -/
theorem mut_agrees_with_pure (l r u : Vector3 Nat) (s : Nat)
    (x y : Matrix3X3 Nat) :
    ThreeDimSpaceV2.vadd_mut l r = ThreeDimSpaceV2.vadd l r
      ∧ ThreeDimSpaceV2.vscale_mut u s = ThreeDimSpaceV2.vscale u s
      ∧ ThreeDimSpaceV2.madd_mut x y = ThreeDimSpaceV2.madd x y :=
  ⟨rfl, rfl, rfl⟩

/-- C9: on the concrete 3x3 matrices `[[0,1,2],[3,4,5],[6,7,8]]` and
`[[2,4,8],[16,32,64],[128,256,512]]`, `madd` returns
`[[2,5,10],[19,36,69],[134,263,520]]`. -/
theorem madd_concrete_example :
    ThreeDimSpaceV2.madd
        (m3 (v3 0 1 2) (v3 3 4 5) (v3 6 7 8))
        (m3 (v3 2 4 8) (v3 16 32 64) (v3 128 256 512))
      = m3 (v3 2 5 10) (v3 19 36 69) (v3 134 263 520) := by
  ext i j
  fin_cases i <;> fin_cases j <;> rfl

/-- C10: scaling by the multiplicative identity `1` of the scalar type is
the identity operation on every `u32` vector (every element below
`2 ^ 32`). -/
theorem vscale_one (v : Vector3 Nat) (h : ∀ i, v.data i < U32_MOD) :
    ThreeDimSpaceV2.vscale v 1 = v := by
  ext i
  show (v.data i * 1) % U32_MOD = v.data i
  rw [Nat.mul_one, Nat.mod_eq_of_lt (h i)]

/-- Witness for C10 at the concrete vector `[1, 2, 3]`. -/
theorem vscale_one_witness :
    (∀ i, (v3 1 2 3).data i < U32_MOD)
      ∧ ThreeDimSpaceV2.vscale (v3 1 2 3) 1 = v3 1 2 3 :=
  ⟨by decide, vscale_one (v3 1 2 3) (by decide)⟩

end RustyMath
